import Mathlib

/-!
Verification of the cedar build pipeline (`src/structure/build.rs`).

The embedding models the filesystem as explicit data: a directory's entries
are a list of `FsNode`s, and the four paths the orchestrator checks are
described by `NodeKind`s in a `World`.  Stateful effects (existence checks,
file/directory reads, process spawning) are recorded in an explicit trace so
that ordering claims ("the layout check runs before any file is read",
"a failure before spawning performs no write") can be stated and proved.
Panics (`expect`, `todo!`) are modelled as distinguished outcomes, not Lean
errors, since the claims distinguish aborts from recoverable results.
-/

namespace Cedar

/-- A node of a readable directory listing, as seen by
`recursive_file_search` in `build.rs`.  A `file` carries whether its path
converts to a UTF-8 string (`Path::to_str` succeeds); a `dir` carries the
entries that `fs::read_dir` would yield for it, in enumeration order;
a `badDir` is an entry whose enumeration fails with an I/O error. -/
inductive FsNode where
  | file (path : String) (utf8 : Bool)
  | dir (path : String) (entries : List FsNode)
  | badDir (path : String)

/-- Outcome of running a fallible, possibly panicking computation:
`ok` models `Ok(_)`, `ioError` models `Err(std::io::Error)`, and `panic`
models a process abort (`expect`/`todo!`) with its message. -/
inductive RunResult (α : Type) where
  | ok (val : α)
  | ioError
  | panic (msg : String)
  deriving DecidableEq, Repr

/-- Embedding of `recursive_file_search` (build.rs lines 81-99): iterate the
directory entries in order; a subdirectory is searched recursively and its
results appended; a file's path is converted to a string (panicking with the
source's `expect` message when the path is not UTF-8) and pushed; an entry
whose read fails propagates the I/O error. -/
def recursive_file_search : List FsNode → RunResult (List String)
  | [] => .ok []
  | FsNode.badDir _ :: _ => .ioError
  | FsNode.file p u :: rest =>
    if u then
      match recursive_file_search rest with
      | .ok r => .ok (p :: r)
      | .ioError => .ioError
      | .panic msg => .panic msg
    else .panic "Error: Failed to convert path to string."
  | FsNode.dir _ es :: rest =>
    match recursive_file_search es with
    | .ok sub =>
      match recursive_file_search rest with
      | .ok r => .ok (sub ++ r)
      | .ioError => .ioError
      | .panic msg => .panic msg
    | .ioError => .ioError
    | .panic msg => .panic msg

/-- The leaf files of a directory tree, in depth-first enumeration order:
files of each entry list in order, with a subdirectory contributing its own
leaf files in place.  Directories themselves are never included. -/
def leafFiles : List FsNode → List String
  | [] => []
  | FsNode.badDir _ :: rest => leafFiles rest
  | FsNode.file p _ :: rest => p :: leafFiles rest
  | FsNode.dir _ es :: rest => leafFiles es ++ leafFiles rest

/-- Every file path in the tree is valid UTF-8. -/
def allUtf8 : List FsNode → Bool
  | [] => true
  | FsNode.badDir _ :: rest => allUtf8 rest
  | FsNode.file _ u :: rest => u && allUtf8 rest
  | FsNode.dir _ es :: rest => allUtf8 es && allUtf8 rest

/-- Every directory in the tree (at any depth) can be enumerated:
the tree contains no `badDir`. -/
def allReadable : List FsNode → Bool
  | [] => true
  | FsNode.badDir _ :: _ => false
  | FsNode.file _ _ :: rest => allReadable rest
  | FsNode.dir _ es :: rest => allReadable es && allReadable rest

theorem recursive_file_search_eq_of_readable :
    ∀ es : List FsNode, allReadable es = true →
      recursive_file_search es =
        (if allUtf8 es then .ok (leafFiles es)
         else .panic "Error: Failed to convert path to string.") := by
  intro es
  induction es using recursive_file_search.induct <;>
    simp_all [recursive_file_search, leafFiles, allReadable, allUtf8] <;>
    intros <;> split_ifs at * <;> simp_all

theorem recursive_file_search_ok_of_readable_utf8
    (es : List FsNode) (hr : allReadable es = true) (hu : allUtf8 es = true) :
    recursive_file_search es = .ok (leafFiles es) := by
  rw [recursive_file_search_eq_of_readable es hr, hu]
  simp

theorem recursive_file_search_panic_of_not_utf8
    (es : List FsNode) (hr : allReadable es = true) (hu : allUtf8 es = false) :
    recursive_file_search es =
      .panic "Error: Failed to convert path to string." := by
  rw [recursive_file_search_eq_of_readable es hr, hu]
  simp

/-- The `[meta]` table of the manifest: `meta.name` and `meta.version`. -/
structure MetaSection where
  name : String
  version : String
  deriving DecidableEq, Repr

/-- The `[build]` table of the manifest: `build.compiler` and `build.cflags`. -/
structure BuildSection where
  compiler : String
  cflags : List String
  deriving DecidableEq, Repr

/-- The parsed manifest (`cedar.toml`), mirroring `Manifest` from
`src/structure/manifest.rs` as used by `build`. -/
structure Manifest where
  meta : MetaSection
  build : BuildSection
  deriving DecidableEq, Repr

/-- What a filesystem path currently is: absent, a regular file, or a
directory.  `Path::exists` is true for both files and directories. -/
inductive NodeKind where
  | missing
  | file
  | dir
  deriving DecidableEq, Repr

/-- `Path::exists` tests presence only, never the kind of the node. -/
def kindExists (k : NodeKind) : Bool := k ≠ NodeKind.missing

/-- Models `Path::join` for the relative child paths `build` uses
(`"cedar.toml"`, `"src/"`, `"include/"`, `"build/"`, and the manifest
name): append with a `/` separator unless the base already ends in one. -/
def pathJoin (base child : String) : String :=
  if base.endsWith "/" then base ++ child else base ++ "/" ++ child

/-- The filesystem and process environment one call of `build` runs
against.  The four `Kind` fields describe the four checked paths;
`manifestText` is the text `fs::read_to_string(cedar.toml)` would return
when the manifest is a readable file (`none` models a read failure);
`parse` is `Manifest::parse` (whose source, `manifest.rs`, is treated as an
uninterpreted total function into success-or-failure — no claim here depends
on its internals); `srcEntries`/`includeEntries` are the listings
`fs::read_dir` yields on `src/` and `include/` when they are readable
directories (`none` models a read failure); `spawnOk` is whether the
compiler executable can be started; `waitOk` is whether waiting on the
child succeeds; `childExit` is the child process's exit code. -/
structure World where
  manifestKind : NodeKind
  srcKind : NodeKind
  includeKind : NodeKind
  buildKind : NodeKind
  manifestText : Option String
  parse : String → Option Manifest
  srcEntries : Option (List FsNode)
  includeEntries : Option (List FsNode)
  spawnOk : Bool
  waitOk : Bool
  childExit : Int

/-- `fs::read_to_string` on a path of the given kind: succeeds only on a
readable regular file; reading a directory or a missing path is an I/O
error. -/
def readToString (k : NodeKind) (text : Option String) : Option String :=
  match k with
  | NodeKind.file => text
  | _ => none

/-- `fs::read_dir` on a path of the given kind: succeeds only on a readable
directory; reading a regular file or a missing path is an I/O error. -/
def readDirEntries (k : NodeKind) (entries : Option (List FsNode)) :
    Option (List FsNode) :=
  match k with
  | NodeKind.dir => entries
  | _ => none

/-- One observable effect of a `build` call, in the order performed:
an existence check, a file read, a directory read, or the attempt to spawn
the external compiler with a program name and argument list.  Spawning is
the only effect that can write to the filesystem (the child compiler writes
the output binary); everything else is a read. -/
inductive Effect where
  | checkExists (path : String)
  | readFile (path : String)
  | readDir (path : String)
  | spawnProcess (prog : String) (args : List String)
  deriving DecidableEq, Repr

/-- Whether an effect only reads the filesystem (everything except
spawning the compiler process). -/
def Effect.isFsRead : Effect → Bool
  | Effect.spawnProcess _ _ => false
  | _ => true

/-- How `build` terminates.  The `err` outcomes are the `Err(_)` returns:
`errInvalidDirectory` and `errInvalidCompiler` mirror the two variants of
`BuildError` in build.rs (`errInvalidCompiler` is declared by the source
but never constructed by `build`); `errManifestParse` is a propagated
`Manifest::parse` failure; `errIo` is a propagated `std::io::Error`.
`panicTodo` is the `todo!()` abort and `panicExpect` an `.expect` abort. -/
inductive BuildOutcome where
  | ok
  | errInvalidDirectory
  | errInvalidCompiler
  | errManifestParse
  | errIo
  | panicTodo
  | panicExpect (msg : String)
  deriving DecidableEq, Repr

/-- Result of the `match manifest.build.compiler.as_str()` expression at
build.rs lines 64-68 (inside `process::Command::new`). -/
inductive CompilerResolution where
  | resolved (prog : String)
  | panicTodo
  | errInvalidDirectory
  deriving DecidableEq, Repr

/-- Embedding of build.rs lines 64-68: `"GCC" | "gcc"` resolve to the
`gcc` program; `"CLANG" | "clang" | "Clang"` hit `todo!()`; anything else
returns `Err(BuildError::InvalidDirectory)`. -/
def resolve_compiler (s : String) : CompilerResolution :=
  if s = "GCC" ∨ s = "gcc" then CompilerResolution.resolved "gcc"
  else if s = "CLANG" ∨ s = "clang" ∨ s = "Clang" then
    CompilerResolution.panicTodo
  else CompilerResolution.errInvalidDirectory

/-- Embedding of `build` (build.rs lines 25-79) over a `World`, returning
the outcome together with the ordered trace of effects performed:
join the four paths; check each for existence in order, returning
`InvalidDirectory` at the first miss; read and parse the manifest; search
`src/` then `include/` recursively; assemble the argument list (files, then
`cflags`, with `-o <build>/<name>` appended last); resolve the compiler
identifier; spawn it and wait. -/
def build (root : String) (w : World) : BuildOutcome × List Effect :=
  let manifest_path := pathJoin root "cedar.toml"
  let src_path := pathJoin root "src/"
  let include_path := pathJoin root "include/"
  let build_path := pathJoin root "build/"
  if kindExists w.manifestKind = false then
    (BuildOutcome.errInvalidDirectory, [Effect.checkExists manifest_path])
  else if kindExists w.srcKind = false then
    (BuildOutcome.errInvalidDirectory,
     [Effect.checkExists manifest_path, Effect.checkExists src_path])
  else if kindExists w.includeKind = false then
    (BuildOutcome.errInvalidDirectory,
     [Effect.checkExists manifest_path, Effect.checkExists src_path,
      Effect.checkExists include_path])
  else if kindExists w.buildKind = false then
    (BuildOutcome.errInvalidDirectory,
     [Effect.checkExists manifest_path, Effect.checkExists src_path,
      Effect.checkExists include_path, Effect.checkExists build_path])
  else
    let t0 : List Effect :=
      [Effect.checkExists manifest_path, Effect.checkExists src_path,
       Effect.checkExists include_path, Effect.checkExists build_path]
    match readToString w.manifestKind w.manifestText with
    | none => (BuildOutcome.errIo, t0 ++ [Effect.readFile manifest_path])
    | some text =>
      match w.parse text with
      | none =>
        (BuildOutcome.errManifestParse, t0 ++ [Effect.readFile manifest_path])
      | some manifest =>
        let t1 := t0 ++ [Effect.readFile manifest_path]
        match readDirEntries w.srcKind w.srcEntries with
        | none => (BuildOutcome.errIo, t1 ++ [Effect.readDir src_path])
        | some srcEntries =>
          match recursive_file_search srcEntries with
          | RunResult.ioError =>
            (BuildOutcome.errIo, t1 ++ [Effect.readDir src_path])
          | RunResult.panic msg =>
            (BuildOutcome.panicExpect msg, t1 ++ [Effect.readDir src_path])
          | RunResult.ok src_files =>
            match readDirEntries w.includeKind w.includeEntries with
            | none =>
              (BuildOutcome.errIo,
               t1 ++ [Effect.readDir src_path, Effect.readDir include_path])
            | some includeEntries =>
              match recursive_file_search includeEntries with
              | RunResult.ioError =>
                (BuildOutcome.errIo,
                 t1 ++ [Effect.readDir src_path, Effect.readDir include_path])
              | RunResult.panic msg =>
                (BuildOutcome.panicExpect msg,
                 t1 ++ [Effect.readDir src_path, Effect.readDir include_path])
              | RunResult.ok include_files =>
                let t2 :=
                  t1 ++ [Effect.readDir src_path, Effect.readDir include_path]
                let output_path := pathJoin build_path manifest.meta.name
                let compiler_args :=
                  (src_files ++ include_files) ++ manifest.build.cflags
                match resolve_compiler manifest.build.compiler with
                | CompilerResolution.errInvalidDirectory =>
                  (BuildOutcome.errInvalidDirectory, t2)
                | CompilerResolution.panicTodo => (BuildOutcome.panicTodo, t2)
                | CompilerResolution.resolved prog =>
                  let args := compiler_args ++ ["-o", output_path]
                  if w.spawnOk then
                    if w.waitOk then
                      (BuildOutcome.ok, t2 ++ [Effect.spawnProcess prog args])
                    else
                      (BuildOutcome.errIo,
                       t2 ++ [Effect.spawnProcess prog args])
                  else
                    (BuildOutcome.panicExpect "Error: Failed to start compiler.",
                     t2 ++ [Effect.spawnProcess prog args])

/-- A concrete manifest used to instantiate the general theorems. -/
def sampleManifest : Manifest :=
  { meta := { name := "demo", version := "0.1.0" },
    build := { compiler := "gcc", cflags := ["-Wall", "-O2"] } }

/-- A concrete well-formed project world around a given manifest:
all four paths present with their conventional kinds, a readable manifest
that parses to `m`, one source file, one header, and a compiler that spawns
and is waited on successfully. -/
def sampleWorld (m : Manifest) : World :=
  { manifestKind := NodeKind.file
    srcKind := NodeKind.dir
    includeKind := NodeKind.dir
    buildKind := NodeKind.dir
    manifestText := some "manifest text"
    parse := fun _ => some m
    srcEntries := some [FsNode.file "src/main.c" true]
    includeEntries := some [FsNode.file "include/a.h" true]
    spawnOk := true
    waitOk := true
    childExit := 0 }

/-- C1: whenever `build` reaches the compiler invocation, the assembled
argument sequence is exactly: all discovered files (the `src/` search
results before the `include/` search results, each in discovery order),
then the manifest's `cflags` in declared order, then the final flag pair
`-o <build_dir>/<meta.name>` as the last two arguments — stated via the
full effect trace, whose spawn effect carries the argument list. -/
theorem compiler_args_order
    (root : String) (w : World) (text : String) (m : Manifest)
    (srcEs incEs : List FsNode) (srcL incL : List String) (prog : String)
    (hmk : w.manifestKind = NodeKind.file)
    (hmt : w.manifestText = some text)
    (hparse : w.parse text = some m)
    (hsk : w.srcKind = NodeKind.dir)
    (hse : w.srcEntries = some srcEs)
    (hsl : recursive_file_search srcEs = RunResult.ok srcL)
    (hik : w.includeKind = NodeKind.dir)
    (hie : w.includeEntries = some incEs)
    (hil : recursive_file_search incEs = RunResult.ok incL)
    (hbk : w.buildKind ≠ NodeKind.missing)
    (hc : resolve_compiler m.build.compiler =
      CompilerResolution.resolved prog) :
    (build root w).2 =
      [Effect.checkExists (pathJoin root "cedar.toml"),
       Effect.checkExists (pathJoin root "src/"),
       Effect.checkExists (pathJoin root "include/"),
       Effect.checkExists (pathJoin root "build/"),
       Effect.readFile (pathJoin root "cedar.toml"),
       Effect.readDir (pathJoin root "src/"),
       Effect.readDir (pathJoin root "include/"),
       Effect.spawnProcess prog
         ((srcL ++ incL) ++ m.build.cflags ++
          ["-o", pathJoin (pathJoin root "build/") m.meta.name])] := by
  simp only [build, readToString, readDirEntries, hmk, hmt, hparse, hsk, hse,
    hsl, hik, hie, hil, hc, kindExists]
  simp [hbk]
  split <;> rename_i h1
  · split <;> rfl
  · rfl

/-- C1 witness: the argument-order theorem instantiated at a concrete root
and world, every hypothesis discharged by evaluation. -/
theorem compiler_args_order_witness :
    (build "root" (sampleWorld sampleManifest)).2 =
      [Effect.checkExists (pathJoin "root" "cedar.toml"),
       Effect.checkExists (pathJoin "root" "src/"),
       Effect.checkExists (pathJoin "root" "include/"),
       Effect.checkExists (pathJoin "root" "build/"),
       Effect.readFile (pathJoin "root" "cedar.toml"),
       Effect.readDir (pathJoin "root" "src/"),
       Effect.readDir (pathJoin "root" "include/"),
       Effect.spawnProcess "gcc"
         ((["src/main.c"] ++ ["include/a.h"]) ++ ["-Wall", "-O2"] ++
          ["-o", pathJoin (pathJoin "root" "build/") "demo"])] :=
  compiler_args_order "root" (sampleWorld sampleManifest) "manifest text"
    sampleManifest [FsNode.file "src/main.c" true]
    [FsNode.file "include/a.h" true] ["src/main.c"] ["include/a.h"] "gcc"
    rfl rfl rfl rfl rfl (by simp [recursive_file_search]) rfl rfl
    (by simp [recursive_file_search]) (by decide) (by decide)

/-- A manifest naming an unrecognized toolchain identifier. -/
def msvcManifest : Manifest :=
  { meta := { name := "demo", version := "0.1.0" },
    build := { compiler := "msvc", cflags := [] } }

/-- A manifest naming the recognized-but-unimplemented clang toolchain. -/
def clangManifest : Manifest :=
  { meta := { name := "demo", version := "0.1.0" },
    build := { compiler := "clang", cflags := [] } }

/-- C2 (code bug evidence): in an otherwise fully well-formed project,
`build` with `build.compiler = "msvc"` returns `BuildError::InvalidDirectory`
— not the declared-but-never-constructed `InvalidCompiler` variant — and
`build` with `build.compiler = "clang"` aborts at `todo!()` instead of
returning any error value. -/
theorem unsupported_compiler_wrong_failure :
    (build "root" (sampleWorld msvcManifest)).1 =
      BuildOutcome.errInvalidDirectory ∧
    (build "root" (sampleWorld clangManifest)).1 = BuildOutcome.panicTodo ∧
    BuildOutcome.errInvalidDirectory ≠ BuildOutcome.errInvalidCompiler := by
  have hs : recursive_file_search [FsNode.file "src/main.c" true] =
      RunResult.ok ["src/main.c"] := by simp [recursive_file_search]
  have hi : recursive_file_search [FsNode.file "include/a.h" true] =
      RunResult.ok ["include/a.h"] := by simp [recursive_file_search]
  refine ⟨?_, ?_, by decide⟩ <;>
    simp [build, sampleWorld, msvcManifest, clangManifest, readToString,
      readDirEntries, resolve_compiler, kindExists, hs, hi]

/-- C3: if any one of the four required children (`cedar.toml`, `src/`,
`include/`, `build/`) is missing, `build` fails with `InvalidDirectory`
regardless of the rest of the world (in particular of manifest content),
and the trace contains only existence checks: no file or directory has been
read and no process spawned. -/
theorem layout_check_runs_first
    (root : String) (w : World)
    (h : w.manifestKind = NodeKind.missing ∨ w.srcKind = NodeKind.missing ∨
         w.includeKind = NodeKind.missing ∨ w.buildKind = NodeKind.missing) :
    (build root w).1 = BuildOutcome.errInvalidDirectory ∧
      ∀ e ∈ (build root w).2, ∃ p, e = Effect.checkExists p := by
  by_cases h1 : w.manifestKind = NodeKind.missing
  · simp [build, kindExists, h1]
  · by_cases h2 : w.srcKind = NodeKind.missing
    · simp [build, kindExists, h1, h2]
    · by_cases h3 : w.includeKind = NodeKind.missing
      · simp [build, kindExists, h1, h2, h3]
      · by_cases h4 : w.buildKind = NodeKind.missing
        · simp [build, kindExists, h1, h2, h3, h4]
        · tauto

/-- A world whose `build/` directory is absent but which is otherwise fully
well formed. -/
def missingBuildWorld : World :=
  { sampleWorld sampleManifest with buildKind := NodeKind.missing }

/-- C3 witness: the layout theorem instantiated at a concrete world whose
`build/` directory is missing. -/
theorem layout_check_runs_first_witness :
    (build "root" missingBuildWorld).1 = BuildOutcome.errInvalidDirectory ∧
      ∀ e ∈ (build "root" missingBuildWorld).2,
        ∃ p, e = Effect.checkExists p :=
  layout_check_runs_first "root" missingBuildWorld
    (Or.inr (Or.inr (Or.inr rfl)))

/-- C5 counterexample: toolchain resolution is not case-insensitive — the
mixed-case spelling `"Gcc"` is rejected (with the `InvalidDirectory` tag)
while `"gcc"` resolves to the gcc toolchain. -/
theorem gcc_mixed_case_rejected :
    resolve_compiler "Gcc" = CompilerResolution.errInvalidDirectory ∧
      resolve_compiler "gcc" = CompilerResolution.resolved "gcc" := by decide

/-- C5 (amended): exactly the two spellings `"gcc"` and `"GCC"` resolve to
the gcc toolchain; every other string — including every other casing of
"gcc", such as "Gcc" — does not. -/
theorem gcc_resolution_exact_casings (s : String) :
    resolve_compiler s = CompilerResolution.resolved "gcc" ↔
      (s = "gcc" ∨ s = "GCC") := by
  unfold resolve_compiler
  split_ifs with h1 h2 <;> simp_all
  tauto

/-- C5 witness: the amended resolution theorem instantiated at `"GCC"`. -/
theorem gcc_resolution_exact_casings_witness :
    resolve_compiler "GCC" = CompilerResolution.resolved "gcc" :=
  (gcc_resolution_exact_casings "GCC").mpr (Or.inr rfl)

/-- A world identical to the well-formed sample world except that the
compiler executable cannot be started. -/
def spawnFailWorld : World :=
  { sampleWorld sampleManifest with spawnOk := false }

/-- C6 counterexample: when the compiler executable cannot be started,
`build` does not return any recoverable error value — it aborts through
`.expect` with the source's panic message. -/
theorem spawn_failure_aborts_counterexample :
    (build "root" spawnFailWorld).1 =
      BuildOutcome.panicExpect "Error: Failed to start compiler." := by
  have hs : recursive_file_search [FsNode.file "src/main.c" true] =
      RunResult.ok ["src/main.c"] := by simp [recursive_file_search]
  have hi : recursive_file_search [FsNode.file "include/a.h" true] =
      RunResult.ok ["include/a.h"] := by simp [recursive_file_search]
  simp [build, spawnFailWorld, sampleWorld, sampleManifest, readToString,
    readDirEntries, resolve_compiler, kindExists, hs, hi]

/-- C6 (amended): whenever `build` reaches the spawn step and the compiler
executable cannot be started, the call terminates with the unrecoverable
`.expect` abort "Error: Failed to start compiler." rather than returning a
typed error result. -/
theorem spawn_failure_aborts
    (root : String) (w : World) (text : String) (m : Manifest)
    (srcEs incEs : List FsNode) (srcL incL : List String) (prog : String)
    (hmk : w.manifestKind = NodeKind.file)
    (hmt : w.manifestText = some text)
    (hparse : w.parse text = some m)
    (hsk : w.srcKind = NodeKind.dir)
    (hse : w.srcEntries = some srcEs)
    (hsl : recursive_file_search srcEs = RunResult.ok srcL)
    (hik : w.includeKind = NodeKind.dir)
    (hie : w.includeEntries = some incEs)
    (hil : recursive_file_search incEs = RunResult.ok incL)
    (hbk : w.buildKind ≠ NodeKind.missing)
    (hc : resolve_compiler m.build.compiler =
      CompilerResolution.resolved prog)
    (hspawn : w.spawnOk = false) :
    (build root w).1 =
      BuildOutcome.panicExpect "Error: Failed to start compiler." := by
  simp only [build, readToString, readDirEntries, hmk, hmt, hparse, hsk, hse,
    hsl, hik, hie, hil, hc, kindExists]
  simp [hbk, hspawn]

/-- C6 witness: the abort theorem instantiated at the concrete
spawn-failure world. -/
theorem spawn_failure_aborts_witness :
    (build "root" spawnFailWorld).1 =
      BuildOutcome.panicExpect "Error: Failed to start compiler." :=
  spawn_failure_aborts "root" spawnFailWorld "manifest text" sampleManifest
    [FsNode.file "src/main.c" true] [FsNode.file "include/a.h" true]
    ["src/main.c"] ["include/a.h"] "gcc" rfl rfl rfl rfl rfl
    (by simp [recursive_file_search]) rfl rfl
    (by simp [recursive_file_search]) (by decide) (by decide) rfl

/-- C7: whenever `build` reaches the spawn step, the spawn succeeds, and
waiting on the child succeeds, `build` returns `Ok(())` — uniformly in the
child's exit code, which the orchestrator never inspects. -/
theorem success_ignores_exit_code
    (root : String) (w : World) (text : String) (m : Manifest)
    (srcEs incEs : List FsNode) (srcL incL : List String) (prog : String)
    (hmk : w.manifestKind = NodeKind.file)
    (hmt : w.manifestText = some text)
    (hparse : w.parse text = some m)
    (hsk : w.srcKind = NodeKind.dir)
    (hse : w.srcEntries = some srcEs)
    (hsl : recursive_file_search srcEs = RunResult.ok srcL)
    (hik : w.includeKind = NodeKind.dir)
    (hie : w.includeEntries = some incEs)
    (hil : recursive_file_search incEs = RunResult.ok incL)
    (hbk : w.buildKind ≠ NodeKind.missing)
    (hc : resolve_compiler m.build.compiler =
      CompilerResolution.resolved prog)
    (hspawn : w.spawnOk = true) (hwait : w.waitOk = true) :
    ∀ c : Int, (build root { w with childExit := c }).1 = BuildOutcome.ok := by
  intro c
  simp only [build, readToString, readDirEntries, hmk, hmt, hparse, hsk, hse,
    hsl, hik, hie, hil, hc, kindExists]
  simp [hbk, hspawn, hwait]

/-- C7 witness: the exit-code-indifference theorem instantiated at the
concrete sample world, with the child exiting nonzero (code 3). -/
theorem success_ignores_exit_code_witness :
    (build "root" { sampleWorld sampleManifest with childExit := 3 }).1 =
      BuildOutcome.ok :=
  success_ignores_exit_code "root" (sampleWorld sampleManifest)
    "manifest text" sampleManifest [FsNode.file "src/main.c" true]
    [FsNode.file "include/a.h" true] ["src/main.c"] ["include/a.h"] "gcc"
    rfl rfl rfl rfl rfl (by simp [recursive_file_search]) rfl rfl
    (by simp [recursive_file_search]) (by decide) (by decide) rfl rfl 3

/-- C8: a build that fails before the compiler process is spawned — a
layout or toolchain-resolution failure (`InvalidDirectory`), a manifest
parse failure, or an I/O failure that is not the post-spawn `wait` error
(`waitOk = true` rules the latter out) — performs only filesystem reads:
every effect in its trace is a read, so no write to the project tree,
including `build/`, has happened. -/
theorem prespawn_failure_only_reads
    (root : String) (w : World)
    (h : (build root w).1 = BuildOutcome.errInvalidDirectory ∨
         (build root w).1 = BuildOutcome.errManifestParse ∨
         ((build root w).1 = BuildOutcome.errIo ∧ w.waitOk = true)) :
    ∀ e ∈ (build root w).2, e.isFsRead = true := by
  intro e he
  revert h he
  simp only [build]
  repeat' split
  all_goals intro he h
  all_goals simp_all [Effect.isFsRead]
  all_goals cases e <;> simp_all

/-- C8 witness: the read-only theorem instantiated at the concrete world
whose `build/` directory is missing, for the check effect in its trace. -/
theorem prespawn_failure_only_reads_witness :
    Effect.isFsRead (Effect.checkExists (pathJoin "root" "cedar.toml")) =
      true :=
  prespawn_failure_only_reads "root" missingBuildWorld
    (Or.inl (by simp [build, missingBuildWorld, sampleWorld, kindExists]))
    (Effect.checkExists (pathJoin "root" "cedar.toml"))
    (by simp [build, missingBuildWorld, sampleWorld, kindExists])

/-- C4: over any readable directory tree all of whose paths are valid
UTF-8, `recursive_file_search` succeeds and returns exactly the leaf files
of the tree at every depth, in depth-first order — each leaf file exactly
once, none omitted, none duplicated, and no directory included. -/
theorem source_discovery_exact
    (es : List FsNode) (hr : allReadable es = true) (hu : allUtf8 es = true) :
    ∃ l, recursive_file_search es = RunResult.ok l ∧ l = leafFiles es ∧
      ∀ s, l.count s = (leafFiles es).count s :=
  ⟨leafFiles es, recursive_file_search_ok_of_readable_utf8 es hr hu, rfl,
    fun _ => rfl⟩

/-- C4 witness: the discovery theorem instantiated at a concrete tree with
files at depths 0, 1, and 2. -/
theorem source_discovery_exact_witness :
    ∃ l, recursive_file_search
        [FsNode.file "a.c" true,
         FsNode.dir "d" [FsNode.file "d/b.c" true,
                         FsNode.dir "d/e" [FsNode.file "d/e/c.c" true]]] =
        RunResult.ok l ∧
      l = leafFiles
        [FsNode.file "a.c" true,
         FsNode.dir "d" [FsNode.file "d/b.c" true,
                         FsNode.dir "d/e" [FsNode.file "d/e/c.c" true]]] ∧
      ∀ s, l.count s = (leafFiles
        [FsNode.file "a.c" true,
         FsNode.dir "d" [FsNode.file "d/b.c" true,
                         FsNode.dir "d/e" [FsNode.file "d/e/c.c" true]]]).count s :=
  source_discovery_exact _ (by simp [allReadable]) (by simp [allUtf8])

/-- C9: if a readable tree contains any entry whose path is not valid
UTF-8, `recursive_file_search` aborts with the `.expect` panic message —
it does not return an I/O error result, so `build`'s error contract does
not cover non-UTF-8 file names. -/
theorem non_utf8_path_panics
    (es : List FsNode) (hr : allReadable es = true)
    (hu : allUtf8 es = false) :
    recursive_file_search es =
        RunResult.panic "Error: Failed to convert path to string." ∧
      recursive_file_search es ≠ RunResult.ioError := by
  have h := recursive_file_search_panic_of_not_utf8 es hr hu
  exact ⟨h, by simp [h]⟩

/-- C9 witness: the panic theorem instantiated at a tree holding one file
whose path is not valid UTF-8. -/
theorem non_utf8_path_panics_witness :
    recursive_file_search [FsNode.file "src/bad" false] =
        RunResult.panic "Error: Failed to convert path to string." ∧
      recursive_file_search [FsNode.file "src/bad" false] ≠
        RunResult.ioError :=
  non_utf8_path_panics [FsNode.file "src/bad" false]
    (by simp [allReadable]) (by simp [allUtf8])

/-- C10: layout validation tests only the existence of the four required
paths, never their kind: whenever all four are present, the pipeline always
proceeds to read the manifest (the trace contains the manifest-file read),
even when `cedar.toml` is a directory or `src/` is a regular file; the kind
mismatch surfaces only later — a directory `cedar.toml` as an I/O read
error, a regular-file `src/` as an I/O error during discovery (or as a
parse error of the manifest read before it). -/
theorem layout_check_ignores_kind
    (root : String) (w : World)
    (hm : w.manifestKind ≠ NodeKind.missing)
    (hs : w.srcKind ≠ NodeKind.missing)
    (hi : w.includeKind ≠ NodeKind.missing)
    (hb : w.buildKind ≠ NodeKind.missing) :
    Effect.readFile (pathJoin root "cedar.toml") ∈ (build root w).2 ∧
      (w.manifestKind = NodeKind.dir →
        (build root w).1 = BuildOutcome.errIo) ∧
      (w.srcKind = NodeKind.file →
        (build root w).1 = BuildOutcome.errIo ∨
        (build root w).1 = BuildOutcome.errManifestParse) := by
  refine ⟨?_, ?_, ?_⟩
  · simp only [build]
    repeat' split
    all_goals simp_all [kindExists]
  · intro hmd
    simp only [build]
    repeat' split
    all_goals simp_all [kindExists, readToString]
  · intro hsf
    simp only [build]
    repeat' split
    all_goals simp_all [kindExists, readToString, readDirEntries]

/-- A world whose `src/` path exists but is a regular file rather than a
directory, and which is otherwise fully well formed. -/
def srcAsFileWorld : World :=
  { sampleWorld sampleManifest with srcKind := NodeKind.file }

/-- C10 witness: the kind-insensitivity theorem instantiated at the
concrete world whose `src/` is a regular file. -/
theorem layout_check_ignores_kind_witness :
    Effect.readFile (pathJoin "root" "cedar.toml") ∈
        (build "root" srcAsFileWorld).2 ∧
      (srcAsFileWorld.manifestKind = NodeKind.dir →
        (build "root" srcAsFileWorld).1 = BuildOutcome.errIo) ∧
      (srcAsFileWorld.srcKind = NodeKind.file →
        (build "root" srcAsFileWorld).1 = BuildOutcome.errIo ∨
        (build "root" srcAsFileWorld).1 = BuildOutcome.errManifestParse) :=
  layout_check_ignores_kind "root" srcAsFileWorld (by decide) (by decide)
    (by decide) (by decide)

end Cedar
